import Mathlib

/-!
Verification development for the bug-exorcist repository.

The definitions below are a shallow embedding of the Python sources:
 - `backend/app/sandbox.py` (`Sandbox.__init__`, `Sandbox.run_code`,
   `Sandbox.cleanup_sidecars`, `Sandbox.build_image`)
 - `backend/app/sandbox_utils.py` (`SandboxManifest`, `detect_project_type`,
   `generate_dynamic_dockerfile`)
 - `core/agent.py` (`BugExorcistAgent._execute_retry_logic`,
   `BugExorcistAgent.verify_fix`, `BugExorcistAgent._parse_ai_response`)
 - `core/fallback.py` (`FallbackHandler`)

External effects (the Docker engine, the filesystem, the system clock, the
AI provider) are modelled as explicit inputs; every fallible call site of
the source is represented by an input that selects between the success and
the exception branch of the corresponding `try`/`except`.
-/

namespace BugExorcist

/-! ## String helpers: Python `needle in hay` substring test -/

/-- `isPrefixList n h` is true when the char list `n` is a prefix of `h`
(model of Python string prefix comparison at the char level). -/
def isPrefixList : List Char → List Char → Bool
  | [], _ => true
  | _ :: _, [] => false
  | a :: as, b :: bs => a == b && isPrefixList as bs

/-- `hasSub n h` is true when `n` occurs as a contiguous substring of `h`. -/
def hasSub (n : List Char) : List Char → Bool
  | [] => isPrefixList n []
  | c :: t => isPrefixList n (c :: t) || hasSub n t

/-- Model of Python `needle in hay` on strings. -/
def pyIn (needle hay : String) : Bool :=
  hasSub needle.data hay.data

/-- Model of Python `s.startswith(pre)`. -/
def pyStartsWith (s pre : String) : Bool :=
  isPrefixList pre.data s.data

/-- Python truthiness of an optional string (`if original_error`):
true exactly for a present, non-empty string. -/
def truthy : Option String → Bool
  | some s => !s.isEmpty
  | none => false

/-! ## Sandbox state and `run_code` (backend/app/sandbox.py)

`SandboxState` tracks the session-scoped Docker resources owned by one
`Sandbox` object: `sidecar_containers`, the session `network`, and the
single-use execution container of the current `run_code` call. -/

structure SandboxState where
  sidecar_containers : List String
  network : Option String
  exec_container : Option String
  deriving DecidableEq

/-- State right after `Sandbox.__init__`: no sidecars, no execution
container; `_create_network` creates the session network only when Docker
is reachable (`use_mock = false`). -/
def initState (use_mock : Bool) : SandboxState :=
  { sidecar_containers := []
    network := if use_mock then none else some "net-session"
    exec_container := none }

/-- One `run_code` call's interaction with the outside world: which
sidecars `start_sidecars` managed to start (it catches per-service errors
itself and never raises), whether `containers.run` / the stdin socket /
`container.logs` raise, the outcome of `container.wait` (`none` models the
timeout/exception branch), the captured logs, and the exception texts. -/
structure RunInput where
  sidecarsStarted : List String
  createOk : Bool
  createMsg : String
  sendOk : Bool
  sendMsg : String
  waitExit : Option Nat
  logsOk : Bool
  logsMsg : String
  logs : String
  deriving DecidableEq

/-- `Sandbox.cleanup_sidecars`: stops/removes every sidecar container
(ignoring errors), clears the list, removes the session network and clears
the handle. -/
def cleanup_sidecars (st : SandboxState) : SandboxState :=
  { st with sidecar_containers := [], network := none }

/-- The `finally` block of `run_code`: `container.remove(force=True)` when
a container was created, then `cleanup_sidecars()`. -/
def runFinally (st : SandboxState) : SandboxState :=
  cleanup_sidecars { st with exec_container := none }

/-- `Sandbox.run_code(code, language)`: returns the captured output string
and the resulting resource state.  In mock mode it returns immediately;
otherwise every exit path (normal return, error-string return, caught
exception) flows through the `finally` cleanup. -/
def run_code (use_mock : Bool) (inp : RunInput) (st : SandboxState) :
    String × SandboxState :=
  if use_mock then
    ("Mock execution successful (Docker not available).", st)
  else
    let st1 : SandboxState :=
      { st with sidecar_containers := st.sidecar_containers ++ inp.sidecarsStarted }
    if !inp.createOk then
      ("System Error: " ++ inp.createMsg, runFinally st1)
    else
      let st2 : SandboxState := { st1 with exec_container := some "exec" }
      if !inp.sendOk then
        ("System Error: " ++ inp.sendMsg, runFinally st2)
      else
        match inp.waitExit with
        | none => ("Error: Execution timed out (30s limit).", runFinally st2)
        | some exit_code =>
          if !inp.logsOk then
            ("System Error: " ++ inp.logsMsg, runFinally st2)
          else if exit_code ≠ 0 then
            ("Error (Exit Code " ++ toString exit_code ++ "):\n" ++ inp.logs,
              runFinally st2)
          else
            (inp.logs, runFinally st2)

/-! ## `BugExorcistAgent.verify_fix` (core/agent.py) -/

structure VerificationResult where
  verified : Bool
  output : String
  new_error : Option String
  deriving DecidableEq

/-- `verify_fix(fixed_code, original_error, language)`: runs the code in
the sandbox, reports an explicit failure in mock mode unless
`ALLOW_MOCK_SANDBOX_VERIFICATION` is set (`allow_mock_sandbox`), and
otherwise derives the verdict from the captured output: failure when the
truthy `original_error` recurs, or when the output contains `"Error"` or
`"Traceback"`.  (`run_code` catches every exception internally, so the
surrounding `except` branch of `verify_fix` is not reachable from it.) -/
def verify_fix (use_mock allow_mock_sandbox : Bool) (inp : RunInput)
    (original_error : Option String) (st : SandboxState) : VerificationResult :=
  let result := (run_code use_mock inp st).1
  if use_mock then
    if !allow_mock_sandbox then
      { verified := false
        output := "Sandbox unavailable: Docker not reachable and mock verification is disabled."
        new_error := some "Sandbox unavailable: Docker not reachable" }
    else
      { verified := true
        output := "Mock verification passed (Docker not available)."
        new_error := none }
  else
    if truthy original_error && pyIn (original_error.getD "") result then
      { verified := false
        output := result
        new_error := some ("Original error persists: " ++ original_error.getD "") }
    else if pyIn "Error" result || pyIn "Traceback" result then
      { verified := false, output := result, new_error := some result }
    else
      { verified := true, output := result, new_error := none }

example : pyIn "Error" "Error (Exit Code 1):\nboom" = true := by decide

example : pyIn "ZeroDivisionError: division by zero"
    "Error handled gracefully" = false := by decide

example :
    (verify_fix false false
      { sidecarsStarted := [], createOk := true, createMsg := ""
        sendOk := true, sendMsg := "", waitExit := some 0
        logsOk := true, logsMsg := "", logs := "all good" }
      (some "ZeroDivisionError: division by zero") (initState false)).verified
    = true := by decide

/-! ## The retry loop: `BugExorcistAgent._execute_retry_logic` (core/agent.py)

Attempts are strictly sequential; what each attempt's provider call and
sandbox verification do is supplied as an oracle `steps : Nat → ProviderStep`
indexed by the attempt number.  Observer hooks never raise (in the source
they are the event-emitting closures of `stream_thought_process`), so the
only exception caught by the loop's `except` is the provider call raising
inside `analyze_error` (`verify_fix` catches everything internally). -/

/-- What attempt `i` encounters: either `analyze_error` raises (`raises`),
or a fix is generated and verified with verdict `verified` and the given
`new_error` field. -/
inductive ProviderStep
  | raises (msg : String)
  | fix (verified : Bool) (new_error : Option String)
  deriving DecidableEq

/-- One entry of `all_attempts`.  An attempt whose provider call raised is
tagged `"ERROR"` and carries no fix (`has_fix = false`, and no `new_error`
key, so the field is `none`); a verified/failed attempt carries the fix
and the verification's `new_error`.  The source record's remaining fields
(`ai_agent`, `timestamp`, the raw `fix_result`/`verification` payloads,
and the `error` text of an ERROR record) are metadata the claims do not
constrain and are not tracked here. -/
structure AttemptRecord where
  attempt_number : Nat
  verification_result : String
  has_fix : Bool
  new_error : Option String
  deriving DecidableEq

/-- Result of running the loop: the append-only `all_attempts` history,
the attempt numbers at which `on_attempt_failed` was invoked, and whether
a fix was verified. -/
structure RetryOutcome where
  all_attempts : List AttemptRecord
  failed_hook_calls : List Nat
  success : Bool
  deriving DecidableEq

/-- The `for attempt_num in range(1, max_attempts + 1)` loop body of
`_execute_retry_logic`, with `fuel` remaining iterations and `i` the
current attempt number.  On a verified fix the loop breaks; on a failed
verification or a provider exception it appends the record, invokes
`on_attempt_failed` only when `i < max_attempts`, and continues. -/
def execRetryAux (steps : Nat → ProviderStep) (max_attempts : Nat) :
    Nat → Nat → RetryOutcome
  | 0, _ => ⟨[], [], false⟩
  | fuel + 1, i =>
    match steps i with
    | .raises _ =>
      let rest := execRetryAux steps max_attempts fuel (i + 1)
      ⟨⟨i, "ERROR", false, none⟩ :: rest.all_attempts,
        (if i < max_attempts then [i] else []) ++ rest.failed_hook_calls,
        rest.success⟩
    | .fix v e =>
      if v then ⟨[⟨i, "PASSED", true, e⟩], [], true⟩
      else
        let rest := execRetryAux steps max_attempts fuel (i + 1)
        ⟨⟨i, "FAILED", true, e⟩ :: rest.all_attempts,
          (if i < max_attempts then [i] else []) ++ rest.failed_hook_calls,
          rest.success⟩

/-- `_execute_retry_logic(..., max_attempts)`: attempts start at 1 and at
most `max_attempts` loop iterations run. -/
def execute_retry_logic (steps : Nat → ProviderStep) (max_attempts : Nat) :
    RetryOutcome :=
  execRetryAux steps max_attempts max_attempts 1

example :
    execute_retry_logic (fun _ => .fix false (some "still broken")) 3 =
      ⟨[⟨1, "FAILED", true, some "still broken"⟩,
        ⟨2, "FAILED", true, some "still broken"⟩,
        ⟨3, "FAILED", true, some "still broken"⟩], [1, 2], false⟩ := by decide

example :
    execute_retry_logic
      (fun i => if i = 2 then .fix true none else .fix false none) 5 =
      ⟨[⟨1, "FAILED", true, none⟩, ⟨2, "PASSED", true, none⟩], [1], true⟩ := by
  decide

example :
    execute_retry_logic (fun _ => .raises "provider down") 2 =
      ⟨[⟨1, "ERROR", false, none⟩, ⟨2, "ERROR", false, none⟩], [1], false⟩ := by
  decide

/-! ## Path model (POSIX paths as canonical component lists)

`backend/app/sandbox.py` canonicalizes paths with `Path(...).resolve()` /
`os.path.abspath`.  An absolute canonical path is modelled as its list of
components; `PyPath` is a not-yet-canonical path as written in a manifest
(absolute or relative, possibly holding `..` / `.` components). -/

structure PyPath where
  isAbs : Bool
  comps : List String
  deriving DecidableEq

/-- Lexical normalization performed by `os.path.abspath`: `.` and empty
components vanish, `..` pops the last accumulated component. -/
def normComps : List String → List String → List String
  | acc, [] => acc
  | acc, c :: rest =>
    if c = "." ∨ c = "" then normComps acc rest
    else if c = ".." then normComps acc.dropLast rest
    else normComps (acc ++ [c]) rest

/-- `os.path.abspath(os.path.join(root, p))` for a canonical absolute
`root`: an absolute `p` discards `root` (Python `os.path.join` semantics),
a relative `p` is appended and then normalized. -/
def abspathJoin (root : List String) (p : PyPath) : List String :=
  if p.isAbs then normComps [] p.comps else normComps root p.comps

/-- Render an absolute canonical component list as the path string Python
compares with `str.startswith`. -/
def renderAbs (comps : List String) : String :=
  "/" ++ String.intercalate "/" comps

example : abspathJoin ["app", "proj"] ⟨false, ["..", "proj2"]⟩ =
    ["app", "proj2"] := by decide

example : renderAbs ["app", "proj2"] = "/app/proj2" := by decide

/-- The volume-bind filter of `run_code`: for each manifest-declared bind
`host_path ↦ container_path`, the host source is canonicalized against the
project root and admitted exactly when the rendered absolute path string
starts with the rendered project root (`abs_host_path.startswith(project_root)`);
otherwise the bind is skipped with a warning. -/
def buildVolumes (project_root : List String) (vols : List (PyPath × String)) :
    List (String × String) :=
  vols.filterMap fun hv =>
    let abs_host_path := abspathJoin project_root hv.1
    if pyStartsWith (renderAbs abs_host_path) (renderAbs project_root) then
      some (renderAbs abs_host_path, hv.2)
    else
      none

/-- Semantic containment: `p` is the root itself or a descendant of it,
as canonical component lists. -/
def insideRoot (root p : List String) : Bool :=
  root.isPrefixOf p

example : buildVolumes ["app", "proj"] [(⟨false, ["data"]⟩, "/data")] =
    [("/app/proj/data", "/data")] := by decide

example : buildVolumes ["app", "proj"] [(⟨false, ["..", "..", "etc"]⟩, "/x")] =
    [] := by decide

/-! ## `Sandbox.__init__` project-path validation (backend/app/sandbox.py) -/

/-- The body of the `try` block in `Sandbox.__init__`: resolve the project
path, require it to be an existing directory, and when `ALLOWED_REPO_ROOT`
is set require `root_dir in resolved_path.parents or root_dir == resolved_path`
(i.e. the canonical root is a prefix of the canonical path); a violated
check raises `ValueError`. -/
def resolveProjectPathChecked (resolved : List String) (is_dir : Bool)
    (allowed_root : Option (List String)) : Except String (List String) :=
  if !is_dir then
    .error "Project path is not a directory"
  else
    match allowed_root with
    | some root =>
      if root.isPrefixOf resolved then .ok resolved
      else .error "Access denied to project path"
    | none => .ok resolved

/-- `Sandbox.__init__`'s choice of `self.project_path`: the enclosing
`except` handler catches any validation error, logs it, and falls back to
`os.getcwd()` (modelled by `cwd`). -/
def sandbox_init_project_path (resolved : List String) (is_dir : Bool)
    (allowed_root : Option (List String)) (cwd : List String) : List String :=
  match resolveProjectPathChecked resolved is_dir allowed_root with
  | .ok p => p
  | .error _ => cwd

example :
    sandbox_init_project_path ["srv", "repos", "proj"] true
      (some ["srv", "repos"]) ["home", "user"] = ["srv", "repos", "proj"] := by
  decide

example :
    sandbox_init_project_path ["etc"] true (some ["srv", "repos"])
      ["home", "user"] = ["home", "user"] := by decide

/-! ## Image build and cache (backend/app/sandbox.py, sandbox_utils.py) -/

/-- The manifest loaded from `.exorcist.yaml` (`SandboxManifest` in
`sandbox_utils.py`); every key defaults to empty when absent. -/
structure SandboxManifest where
  env : List (String × String)
  resources_memory : Option String
  resources_cpu : Option String
  setup_scripts : List String
  services : List String
  volumes : List (PyPath × String)
  deriving DecidableEq

/-- `detect_project_type(project_path)`: checks, in order, for
`requirements.txt`, `package.json`, `go.mod` in the project root; the three
booleans are the `os.path.exists` oracle for those files. -/
def detect_project_type (has_requirements has_package_json has_go_mod : Bool) :
    Option String :=
  if has_requirements then some "python"
  else if has_package_json then some "nodejs"
  else if has_go_mod then some "go"
  else none

/-- `generate_dynamic_dockerfile(project_path, manifest, base_image)`:
header, manifest env, dependency-install step chosen from the detected
project type, manifest setup commands, and the fixed non-root-user tail. -/
def generate_dynamic_dockerfile (project_type : Option String)
    (manifest : SandboxManifest) (base_image : String) : String :=
  String.intercalate "\n"
    (["FROM " ++ base_image, "USER root", "WORKDIR /app"]
      ++ manifest.env.map (fun kv => "ENV " ++ kv.1 ++ "=" ++ kv.2)
      ++ (match project_type with
          | some "python" =>
            ["COPY requirements.txt .",
             "RUN pip install --no-cache-dir -r requirements.txt"]
          | some "nodejs" =>
            ["COPY package*.json ./", "RUN npm install --no-audit --no-fund"]
          | some "go" => ["COPY go.mod go.sum* ./", "RUN go mod download"]
          | _ => [])
      ++ manifest.setup_scripts.map (fun s => "RUN " ++ s)
      ++ ["RUN useradd -m exorcist && chown -R exorcist:exorcist /app",
          "USER exorcist"])

/-- Deterministic stand-in for
`hashlib.sha256(dockerfile_content.encode()).hexdigest()[:12]`.  The
claims about the cache depend only on the digest being a function of the
script text, not on the particular digest values, so a simple polynomial
content hash is used in place of SHA-256. -/
def contentHash (s : String) : Nat :=
  s.data.foldl (fun h c => (h * 131 + c.toNat) % (2 ^ 48)) 7

/-- The image tags known to the Docker engine (`client.images.get`
succeeds exactly on members). -/
structure ImageCache where
  tags : List String
  deriving DecidableEq

/-- Result of one `build_image` call: the returned tag, the sandbox's
`self.image` after the call, the engine's image store, and whether a real
build was invoked. -/
structure BuildResult where
  tag : String
  image : String
  cache : ImageCache
  performed_build : Bool
  deriving DecidableEq

/-- `Sandbox.build_image()`: in mock mode the configured image is returned
untouched.  Otherwise the Dockerfile text is generated — with the
*current* `self.image` as its FROM base — and hashed, and the derived tag
`bug-exorcist-{project_id}:{hash}` is looked up in the engine: a hit is
reused with no build, a miss triggers a real build that tags the new
image, and in both cases `self.image` is updated to the tag; a failing
build falls back to the previously configured image (`self.image`
unchanged).  `image` is the sandbox's `self.image` at call time and
`project_id` is `os.path.basename` of the project path. -/
def build_image (use_mock : Bool) (project_type : Option String)
    (manifest : SandboxManifest) (project_id image : String)
    (build_succeeds : Bool) (cache : ImageCache) : BuildResult :=
  if use_mock then ⟨image, image, cache, false⟩
  else
    let dockerfile_content := generate_dynamic_dockerfile project_type manifest image
    let cache_hash := contentHash dockerfile_content
    let custom_image_tag :=
      "bug-exorcist-" ++ project_id ++ ":" ++ toString cache_hash
    if custom_image_tag ∈ cache.tags then
      ⟨custom_image_tag, custom_image_tag, cache, false⟩
    else if build_succeeds then
      ⟨custom_image_tag, custom_image_tag, ⟨custom_image_tag :: cache.tags⟩, true⟩
    else
      ⟨image, image, cache, true⟩

/-! ## `BugExorcistAgent._parse_ai_response` (core/agent.py)

The parser is a line-oriented state machine; it is embedded over
`List Char` so that every Python string primitive it uses (`split`,
`strip`, `lower`, `in`, slicing) reduces in the kernel. -/

/-- Python `str.split(sep)` for a one-character separator. -/
def splitOnChar (sep : Char) : List Char → List (List Char)
  | [] => [[]]
  | c :: t =>
    let r := splitOnChar sep t
    if c == sep then [] :: r
    else
      match r with
      | [] => [[c]]
      | h :: t2 => (c :: h) :: t2

/-- Whitespace characters stripped by Python `str.strip()` /
split by `str.split(None)`. -/
def isWsChar (c : Char) : Bool :=
  c == ' ' || c == '\t' || c == '\n' || c == '\r' || c == '\x0b' || c == '\x0c'

/-- Python `str.strip()`. -/
def pyStrip (l : List Char) : List Char :=
  ((l.dropWhile isWsChar).reverse.dropWhile isWsChar).reverse

/-- Python `s.split(sep, 1)` restricted to the case `sep in s`:
the parts before and after the first occurrence of `sep`. -/
def splitFirstAfter (sep : List Char) : List Char → Option (List Char × List Char)
  | [] => none
  | c :: t =>
    if isPrefixList sep (c :: t) then some ([], (c :: t).drop sep.length)
    else
      match splitFirstAfter sep t with
      | some pq => some (c :: pq.1, pq.2)
      | none => none

/-- Python `s.split(None, 1)`: leading whitespace is discarded, the first
whitespace-delimited word is separated from the remainder (whose own
leading whitespace is discarded); empty trailing parts are dropped. -/
def pySplitNoneOnce (l : List Char) : List (List Char) :=
  let l1 := l.dropWhile isWsChar
  if l1 = [] then []
  else
    let w := l1.takeWhile (fun c => !isWsChar c)
    let rest := (l1.dropWhile (fun c => !isWsChar c)).dropWhile isWsChar
    if rest = [] then [w] else [w, rest]

/-- Python `'\n'.join(lines)`. -/
def joinNl : List (List Char) → List Char
  | [] => []
  | [l] => l
  | l :: rest => l ++ '\n' :: joinNl rest

/-- The parser states of `_parse_ai_response`
(`None`, `'root_cause'`, `'code'`, `'explanation'`, `'retry_analysis'`). -/
inductive ParseState
  | start
  | root_cause
  | code
  | explanation
  | retry_analysis
  deriving DecidableEq

/-- The four accumulated line lists plus the current state. -/
structure ParseAcc where
  root_cause_lines : List (List Char)
  fixed_code_lines : List (List Char)
  explanation_lines : List (List Char)
  retry_analysis_lines : List (List Char)
  state : ParseState
  deriving DecidableEq

/-- Inline header content: `stripped_line.split(':', 1)[1].strip()` when
the stripped line contains a colon, else empty. -/
def headerContent (stripped_line : List Char) : List Char :=
  if stripped_line.contains ':' then
    pyStrip ((splitFirstAfter [':'] stripped_line).getD ([], [])).2
  else []

/-- One iteration of the `for line in lines` loop of `_parse_ai_response`:
fence handling first (with inline content after an opening fence or before
a closing fence), then header detection with inline content, then the
state action appending the raw line. -/
def parseLine (acc : ParseAcc) (line : List Char) : ParseAcc :=
  let stripped_line := pyStrip line
  let lower_line := stripped_line.map Char.toLower
  if hasSub "```".data lower_line then
    if acc.state ≠ ParseState.code then
      let fc0 := ((splitFirstAfter "```".data stripped_line).getD ([], [])).2
      let fence_content :=
        if isPrefixList "python".data fc0 then pyStrip (fc0.drop 6)
        else
          match pySplitNoneOnce fc0 with
          | [_, p2] => pyStrip p2
          | _ => []
      { acc with
        state := ParseState.code
        fixed_code_lines :=
          acc.fixed_code_lines ++ (if fence_content ≠ [] then [fence_content] else []) }
    else
      let fence_pre := pyStrip ((splitFirstAfter "```".data stripped_line).getD ([], [])).1
      { acc with
        state := ParseState.start
        fixed_code_lines :=
          acc.fixed_code_lines ++ (if fence_pre ≠ [] then [fence_pre] else []) }
  else if hasSub "root cause".data lower_line then
    let content := headerContent stripped_line
    { acc with
      state := ParseState.root_cause
      root_cause_lines :=
        acc.root_cause_lines ++ (if content ≠ [] then [content] else []) }
  else if hasSub "explanation".data lower_line || hasSub "changes".data lower_line then
    let content := headerContent stripped_line
    { acc with
      state := ParseState.explanation
      explanation_lines :=
        acc.explanation_lines ++ (if content ≠ [] then [content] else []) }
  else if hasSub "wrong with".data lower_line
      || hasSub "previous attempt".data lower_line then
    let content := headerContent stripped_line
    { acc with
      state := ParseState.retry_analysis
      retry_analysis_lines :=
        acc.retry_analysis_lines ++ (if content ≠ [] then [content] else []) }
  else
    match acc.state with
    | ParseState.root_cause =>
      { acc with root_cause_lines := acc.root_cause_lines ++ [line] }
    | ParseState.code =>
      { acc with fixed_code_lines := acc.fixed_code_lines ++ [line] }
    | ParseState.explanation =>
      { acc with explanation_lines := acc.explanation_lines ++ [line] }
    | ParseState.retry_analysis =>
      { acc with retry_analysis_lines := acc.retry_analysis_lines ++ [line] }
    | ParseState.start => acc

structure ParsedResponse where
  root_cause : String
  fixed_code : String
  explanation : String
  confidence : ℚ
  retry_analysis : String
  deriving DecidableEq

/-- `_parse_ai_response(ai_response, original_code)`: run the state
machine over the lines, join and strip each section, fall back to
`original_code` when no code was extracted, and derive the confidence
estimate. -/
def parse_ai_response (ai_response original_code : String) : ParsedResponse :=
  let acc :=
    (splitOnChar '\n' ai_response.data).foldl parseLine ⟨[], [], [], [], ParseState.start⟩
  let fixed_code0 := pyStrip (joinNl acc.fixed_code_lines)
  let root_cause := pyStrip (joinNl acc.root_cause_lines)
  let explanation := pyStrip (joinNl acc.explanation_lines)
  let retry_analysis := pyStrip (joinNl acc.retry_analysis_lines)
  let fixed_code := if fixed_code0 = [] then original_code.data else fixed_code0
  let confidence : ℚ := if fixed_code ≠ [] ∧ root_cause ≠ [] then 85 / 100 else 6 / 10
  { root_cause := if root_cause = [] then "Analysis completed" else String.mk root_cause
    fixed_code := String.mk fixed_code
    explanation := if explanation = [] then "Code has been fixed" else String.mk explanation
    confidence := confidence
    retry_analysis := String.mk retry_analysis }

/-- The code submitted to sandbox verification for one attempt, as wired
in `_execute_retry_logic`:
`verify_fix(fixed_code=fix_result['fixed_code'], ...)`. -/
def submitted_code (ai_response original_code : String) : String :=
  (parse_ai_response ai_response original_code).fixed_code

example :
    (parse_ai_response
      "Root Cause: bad index\n```python\nxs = [1]\nprint(xs[0])\n```\nExplanation: guarded"
      "orig").fixed_code = "xs = [1]\nprint(xs[0])" := by decide

example :
    (parse_ai_response "Root Cause: bad index\nExplanation: guarded" "orig").fixed_code
      = "orig" := by decide

/-! ## `FallbackHandler` (core/fallback.py) -/

/-- Python slicing `s[:n]`. -/
def pyTakeStr (s : String) (n : Nat) : String :=
  String.mk (s.data.take n)

/-- Python `len(s)`. -/
def pyLen (s : String) : Nat :=
  s.data.length

/-- One entry of the `error_patterns` catalog. -/
structure ErrorPattern where
  title : String
  description : String
  common_fixes : List String
  example_fix : String
  deriving DecidableEq

/-- The fixed, ordered `error_patterns` catalog of `FallbackHandler`
(Python dicts preserve insertion order). -/
def error_patterns : List (String × ErrorPattern) :=
  [("ZeroDivisionError",
    { title := "Division by Zero Detected"
      description := "Your code is attempting to divide by zero, which is mathematically undefined."
      common_fixes :=
        ["Add a check: `if denominator != 0:` before division",
         "Use a try-except block to catch ZeroDivisionError",
         "Set a default return value for zero division cases",
         "Validate input before performing division operations"]
      example_fix := "def divide(a, b):\n    if b == 0:\n        return 0  # or raise ValueError(\"Cannot divide by zero\")\n    return a / b" }),
   ("IndexError",
    { title := "List Index Out of Range"
      description := "Your code is trying to access a list index that doesn\x27t exist."
      common_fixes :=
        ["Check list length before accessing: `if len(list) > index:`",
         "Use try-except to catch IndexError",
         "Use list.get() for dictionaries or safe access patterns",
         "Validate indices are within valid range [0, len(list)-1]"]
      example_fix := "def get_item(items, index):\n    if index < 0 or index >= len(items):\n        return None  # or raise appropriate error\n    return items[index]" }),
   ("KeyError",
    { title := "Dictionary Key Not Found"
      description := "Your code is accessing a dictionary key that doesn\x27t exist."
      common_fixes :=
        ["Use dict.get(key, default) instead of dict[key]",
         "Check if key exists: `if key in dictionary:`",
         "Use try-except to catch KeyError",
         "Use defaultdict from collections module"]
      example_fix := "def get_value(data, key):\n    return data.get(key, None)  # Returns None if key doesn\x27t exist\n    # or\n    if key in data:\n        return data[key]" }),
   ("TypeError",
    { title := "Type Mismatch Error"
      description := "Your code is performing an operation on incompatible data types."
      common_fixes :=
        ["Add type conversion: int(), str(), float(), etc.",
         "Validate types before operations: isinstance(var, type)",
         "Use type hints and static type checking",
         "Handle None values explicitly"]
      example_fix := "def add_values(a, b):\n    # Convert to integers before adding\n    return int(a) + int(b)\n    # or validate types\n    if not isinstance(a, int) or not isinstance(b, int):\n        raise TypeError(\"Both arguments must be integers\")" }),
   ("AttributeError",
    { title := "Attribute or Method Not Found"
      description := "Your code is trying to access an attribute or method that doesn\x27t exist on the object."
      common_fixes :=
        ["Check if attribute exists: hasattr(obj, \x27attr\x27)",
         "Validate object is not None before accessing attributes",
         "Use getattr(obj, \x27attr\x27, default) for safe access",
         "Verify object type matches expected class"]
      example_fix := "def process(obj):\n    if obj is None:\n        return None\n    if hasattr(obj, \x27process\x27):\n        return obj.process()\n    return default_process(obj)" }),
   ("ValueError",
    { title := "Invalid Value Error"
      description := "Your code received a value that\x27s the right type but inappropriate for the operation."
      common_fixes :=
        ["Add input validation before operations",
         "Use try-except to catch ValueError",
         "Provide clear error messages for invalid inputs",
         "Use regex or validation libraries for complex validation"]
      example_fix := "def parse_number(value):\n    try:\n        return int(value)\n    except ValueError:\n        raise ValueError(f\"Cannot convert \x27{value}\x27 to integer\")" }),
   ("NameError",
    { title := "Undefined Variable or Name"
      description := "Your code references a variable or name that hasn\x27t been defined."
      common_fixes :=
        ["Check for typos in variable names",
         "Ensure variables are defined before use",
         "Check variable scope (local vs global)",
         "Import required modules and functions"]
      example_fix := "# Define variable before use\nresult = None  # Initialize\nif condition:\n    result = calculate()\nreturn result" }),
   ("ImportError",
    { title := "Module Import Failed"
      description := "Your code cannot import a required module or package."
      common_fixes :=
        ["Install missing package: pip install <package>",
         "Check package name spelling",
         "Verify package is in requirements.txt",
         "Check Python path and virtual environment"]
      example_fix := "# Add to requirements.txt\n# package-name==version\n# Then run: pip install -r requirements.txt" })]

/-- `FallbackHandler.is_enabled`: `ENABLE_FALLBACK` defaults to `"true"`. -/
def fallback_is_enabled (env_value : Option String) : Bool :=
  (env_value.getD "true").toLower == "true"

/-- `FallbackHandler.identify_error_type(error_message)`: the first
catalog key occurring as a substring of the message, if any. -/
def identify_error_type (error_message : String) : Option String :=
  ((error_patterns.find? fun p => pyIn p.1 error_message).map fun p => p.1)

structure ErrorSummary where
  original_error : String
  error_type : String
  code_snippet : String
  deriving DecidableEq

structure FailureNotice where
  title : String
  message : String
  reason : String
  impact : String
  deriving DecidableEq

structure GuidanceBlock where
  title : String
  description : String
  suggested_fixes : List String
  example_solution : String
  deriving DecidableEq

structure DebugStep where
  step : Nat
  action : String
  description : String
  deriving DecidableEq

structure DocLink where
  name : String
  url : String
  description : String
  deriving DecidableEq

structure ToolLink where
  name : String
  description : String
  usage : String
  deriving DecidableEq

structure AttemptSummaryEntry where
  attempt_number : Nat
  result : String
  error : Option String
  deriving DecidableEq

/-- The structured response assembled by
`FallbackHandler.generate_fallback_response`. -/
structure FallbackResponse where
  bug_id : String
  status : String
  fallback_enabled : Bool
  total_attempts : Nat
  timestamp : String
  error_summary : ErrorSummary
  ai_failure_notice : FailureNotice
  manual_guidance : GuidanceBlock
  debugging_steps : List DebugStep
  documentation : List DocLink
  debugging_tools : List ToolLink
  attempt_summary : List AttemptSummaryEntry
  conclusion : String
  recommended_next_steps : List String
  deriving DecidableEq

/-- `FallbackHandler.generate_fallback_response(error_message,
code_snippet, bug_id, total_attempts, all_attempts)`.  The source stamps
the response with `datetime.now().isoformat()`; that clock read is the
one effect of the function and is modelled by the explicit `now`
argument. -/
def generate_fallback_response (error_message code_snippet bug_id : String)
    (total_attempts : Nat) (all_attempts : List AttemptRecord) (now : String) :
    FallbackResponse :=
  let error_type := identify_error_type error_message
  { bug_id := bug_id
    status := "ai_analysis_failed"
    fallback_enabled := true
    total_attempts := total_attempts
    timestamp := now
    error_summary :=
      { original_error := error_message
        error_type := error_type.getD "Unknown"
        code_snippet :=
          if pyLen code_snippet > 500 then pyTakeStr code_snippet 500 ++ "..."
          else code_snippet }
    ai_failure_notice :=
      { title := "AI Analysis Unavailable"
        message := "The AI was unable to generate a verified fix after "
          ++ toString total_attempts ++ " attempts."
        reason := "All automatic fix attempts failed verification in the sandbox environment."
        impact := "You will need to apply manual debugging to resolve this issue." }
    manual_guidance :=
      match error_type.bind (fun t => (error_patterns.find? fun p => p.1 = t)) with
      | some p =>
        { title := p.2.title
          description := p.2.description
          suggested_fixes := p.2.common_fixes
          example_solution := p.2.example_fix }
      | none =>
        { title := "Unknown Error Type"
          description := "The error type couldn\x27t be automatically identified. Manual debugging is required."
          suggested_fixes :=
            ["Read the error message carefully to understand what went wrong",
             "Check the line number mentioned in the stack trace",
             "Review recent code changes that might have introduced the bug",
             "Add print statements or use a debugger to trace execution",
             "Search for the error message online for similar cases",
             "Consult documentation for the libraries or frameworks involved"]
          example_solution := "# Add debugging\nprint(f\x27Debug: variable = {variable}\x27)\nprint(f\x27Debug: type = {type(variable)}\x27)" }
    debugging_steps :=
      [⟨1, "Understand the Error",
        "Read the error message and identify the exact line causing the issue"⟩,
       ⟨2, "Reproduce Locally",
        "Try to reproduce the error in your development environment"⟩,
       ⟨3, "Add Logging",
        "Insert print statements or logging to inspect variable values"⟩,
       ⟨4, "Test Incrementally",
        "Make small changes and test after each modification"⟩,
       ⟨5, "Seek Help",
        "If stuck, consult documentation, Stack Overflow, or team members"⟩]
    documentation :=
      [⟨"Python Official Documentation", "https://docs.python.org/3/",
        "Comprehensive Python language reference"⟩,
       ⟨"Stack Overflow",
        "https://stackoverflow.com/search?q=" ++ error_type.getD "python error",
        "Community-driven Q&A for programming issues"⟩]
    debugging_tools :=
      [⟨"Python Debugger (pdb)", "Built-in interactive debugger for Python",
        "import pdb; pdb.set_trace()"⟩,
       ⟨"Print Debugging", "Simple but effective debugging with print statements",
        "print(f\x27Debug: {variable=}\x27)"⟩]
    attempt_summary :=
      all_attempts.map fun a =>
        { attempt_number := a.attempt_number
          result := a.verification_result
          error :=
            if truthy a.new_error then some (pyTakeStr (a.new_error.getD "Unknown") 200)
            else none }
    conclusion := "None of the " ++ toString total_attempts
      ++ " AI-generated fixes passed verification."
    recommended_next_steps :=
      ["Review the manual guidance provided above",
       "Try the example solution as a starting point",
       "Use the debugging steps to investigate further",
       "Consult the helpful resources for more information",
       "If this is a critical bug, escalate to senior developers"] }

example : identify_error_type "ZeroDivisionError: division by zero" =
    some "ZeroDivisionError" := by decide

example : identify_error_type "Exception: ValueError hidden inside TypeError text" =
    some "TypeError" := by decide

example : identify_error_type "SegmentationFault" = none := by decide

/-- Whether an attempt generates a fix that passes verification (the only
event that breaks the retry loop early). -/
def isSuccessStep : ProviderStep → Bool
  | .fix true _ => true
  | _ => false

/-- Blank out the clock-dependent field of a fallback response. -/
def eraseTimestamp (r : FallbackResponse) : FallbackResponse :=
  { r with timestamp := "" }

/-! ## Helper lemmas -/

theorem isPrefixList_self_append (p rest : List Char) :
    isPrefixList p (p ++ rest) = true := by
  induction p with
  | nil => rfl
  | cons a as ih => simp [isPrefixList, ih]

theorem isPrefixList_append_right (n l r : List Char)
    (h : isPrefixList n l = true) : isPrefixList n (l ++ r) = true := by
  induction n generalizing l with
  | nil => rfl
  | cons a as ih =>
    cases l with
    | nil => simp [isPrefixList] at h
    | cons b bs =>
      simp only [isPrefixList, Bool.and_eq_true, beq_iff_eq] at h ⊢
      exact ⟨h.1, ih bs h.2⟩

theorem hasSub_of_isPrefixList (n h : List Char)
    (hp : isPrefixList n h = true) : hasSub n h = true := by
  cases h with
  | nil => simpa [hasSub] using hp
  | cons c t => simp [hasSub, hp]

/-- `"Error"` occurs in any string starting with a literal that itself
starts with `"Error"`. -/
theorem pyIn_Error_of_startsWith (s t : String)
    (h : isPrefixList "Error".data s.data = true) :
    pyIn "Error" (s ++ t) = true := by
  unfold pyIn
  rw [String.data_append]
  exact hasSub_of_isPrefixList _ _ (isPrefixList_append_right _ _ _ h)

/-! ## Claim theorems -/

/-- C3: after every call to `run_code` — normal return, failure return, or
caught exception, i.e. for every possible `RunInput` — the per-attempt
execution container is removed and all sidecar containers plus the session
network are torn down: with Docker reachable this holds from any resource
state (the `finally` block runs on every exit path), and a mock-mode
sandbox never acquired any of these resources to begin with. -/
theorem C3_cleanup_unconditional (inp : RunInput) (st : SandboxState) :
    (run_code false inp st).2 = ⟨[], none, none⟩
      ∧ (run_code true inp (initState true)).2 = ⟨[], none, none⟩ := by
  constructor
  · unfold run_code runFinally cleanup_sidecars
    rcases inp.waitExit with _ | ec <;>
      simp <;> split_ifs <;> rfl
  · rfl

/-- C4: when the container engine is unreachable (`use_mock = true`),
`verify_fix` reports `verified = false` with the explicit
environment-unavailable reason unless `ALLOW_MOCK_SANDBOX_VERIFICATION`
is enabled; and a `verified = true` result is only possible when the run
was real (`use_mock = false`) or that flag was set. -/
theorem C4_no_silent_mock_success (inp : RunInput) (err : Option String)
    (st : SandboxState) (use_mock allow_mock_sandbox : Bool) :
    ((verify_fix true false inp err st).verified = false
      ∧ (verify_fix true false inp err st).new_error
          = some "Sandbox unavailable: Docker not reachable")
    ∧ ((verify_fix use_mock allow_mock_sandbox inp err st).verified = true →
        use_mock = false ∨ allow_mock_sandbox = true) := by
  refine ⟨⟨rfl, rfl⟩, ?_⟩
  intro h
  cases use_mock with
  | false => exact Or.inl rfl
  | true =>
    cases allow_mock_sandbox with
    | true => exact Or.inr rfl
    | false => simp [verify_fix] at h

/-- C4 witness: at a concrete input, a mock-mode sandbox with the flag off
is reported unverified with the explicit reason, and a concrete verified
result implies a real run or the flag. -/
theorem C4_no_silent_mock_success_witness :
    ((verify_fix true false
        ⟨[], true, "", true, "", some 0, true, "", "ok"⟩ none
        (initState true)).verified = false
      ∧ (verify_fix true false
          ⟨[], true, "", true, "", some 0, true, "", "ok"⟩ none
          (initState true)).new_error
          = some "Sandbox unavailable: Docker not reachable")
    ∧ ((verify_fix true true
        ⟨[], true, "", true, "", some 0, true, "", "ok"⟩ none
        (initState true)).verified = true → true = false ∨ true = true) :=
  C4_no_silent_mock_success
    ⟨[], true, "", true, "", some 0, true, "", "ok"⟩ none (initState true) true true

/-- C5: the claim that no bind whose canonical host path lies outside the
project root is ever mounted fails on the code: the guard is the string
comparison `abs_host_path.startswith(project_root)`, so for project root
`/app/proj` the manifest bind `../proj2` canonicalizes to the sibling
directory `/app/proj2` — outside the root — and is nevertheless added to
the volume map. -/
theorem C5_prefix_check_escapes_root :
    buildVolumes ["app", "proj"] [(⟨false, ["..", "proj2"]⟩, "/data")]
        = [("/app/proj2", "/data")]
      ∧ insideRoot ["app", "proj"]
          (abspathJoin ["app", "proj"] ⟨false, ["..", "proj2"]⟩) = false := by
  decide

/-- C7 counterexample: with allowed root `/srv/repos` configured and the
existing directory `/etc` requested, the internal check does raise the
access-denied error, but `Sandbox.__init__` catches it and proceeds with
the current working directory as a substitute project path — session setup
does not fail fatally as the claim states. -/
theorem C7_counterexample :
    resolveProjectPathChecked ["etc"] true (some ["srv", "repos"])
        = Except.error "Access denied to project path"
      ∧ sandbox_init_project_path ["etc"] true (some ["srv", "repos"])
          ["home", "user"] = ["home", "user"] :=
  ⟨by rfl, by decide⟩

/-- C7 amended: when an allowed-root policy is configured, session setup
never fails: it adopts the canonicalized project path exactly when it is
an existing directory and is the allowed root or a descendant of it, and
otherwise swallows the access-denied/not-a-directory error and falls back
to the current working directory. -/
theorem C7_amended (resolved : List String) (is_dir : Bool)
    (root cwd : List String) :
    sandbox_init_project_path resolved is_dir (some root) cwd
      = if is_dir && root.isPrefixOf resolved then resolved else cwd := by
  unfold sandbox_init_project_path resolveProjectPathChecked
  cases is_dir with
  | false => simp
  | true =>
    by_cases h : root.isPrefixOf resolved = true
    · simp [h]
    · simp [Bool.not_eq_true] at h
      simp [h]

set_option maxRecDepth 8192 in
/-- C8 counterexample: on one sandbox instance, two consecutive
`build_image` calls with an unchanged project and manifest do NOT produce
the same tag, and the second is NOT a cache hit: the generated Dockerfile
embeds `self.image` as its FROM base and `build_image` updates
`self.image` to the freshly built tag, so the second call hashes a
different script, derives a new tag, misses the cache and performs a real
build. -/
theorem C8_counterexample :
    (build_image false none ⟨[], none, none, [], [], []⟩ "proj"
          (build_image false none ⟨[], none, none, [], [], []⟩ "proj"
            "bug-exorcist-sandbox:latest" true ⟨[]⟩).image true
          (build_image false none ⟨[], none, none, [], [], []⟩ "proj"
            "bug-exorcist-sandbox:latest" true ⟨[]⟩).cache).tag
        ≠ (build_image false none ⟨[], none, none, [], [], []⟩ "proj"
            "bug-exorcist-sandbox:latest" true ⟨[]⟩).tag
      ∧ (build_image false none ⟨[], none, none, [], [], []⟩ "proj"
          (build_image false none ⟨[], none, none, [], [], []⟩ "proj"
            "bug-exorcist-sandbox:latest" true ⟨[]⟩).image true
          (build_image false none ⟨[], none, none, [], [], []⟩ "proj"
            "bug-exorcist-sandbox:latest" true ⟨[]⟩).cache).performed_build
          = true := by
  decide

/-- C8 amended: the build script text determines hash and tag
deterministically, so two builds that start from the same configured base
image (same `self.image`, as with a fresh `Sandbox` per task) and an
unchanged project and manifest yield the same image tag, the second is a
cache hit performing no real build, and on a cold cache the first call
performs the one real build; on the same instance, however, the second
consecutive call rebases on the first call's output tag and rebuilds. -/
theorem C8_amended (project_type : Option String) (manifest : SandboxManifest)
    (project_id image : String) (cache : ImageCache) :
    (build_image false project_type manifest project_id image true
          (build_image false project_type manifest project_id image true
            cache).cache).tag
        = (build_image false project_type manifest project_id image true
            cache).tag
      ∧ (build_image false project_type manifest project_id image true
          (build_image false project_type manifest project_id image true
            cache).cache).performed_build = false
      ∧ ((build_image false project_type manifest project_id image true
            cache).tag ∉ cache.tags →
          (build_image false project_type manifest project_id image true
            cache).performed_build = true) := by
  unfold build_image
  by_cases h :
      ("bug-exorcist-" ++ project_id ++ ":"
        ++ toString (contentHash
          (generate_dynamic_dockerfile project_type manifest image)))
        ∈ cache.tags
  · simp [h]
  · simp [h]

/-- C8 amended, witness: a concrete cold-cache double build from an empty
manifest and the default base image. -/
theorem C8_amended_witness :
    (build_image false none ⟨[], none, none, [], [], []⟩ "proj"
          "bug-exorcist-sandbox:latest" true
          (build_image false none ⟨[], none, none, [], [], []⟩ "proj"
            "bug-exorcist-sandbox:latest" true ⟨[]⟩).cache).tag
        = (build_image false none ⟨[], none, none, [], [], []⟩ "proj"
            "bug-exorcist-sandbox:latest" true ⟨[]⟩).tag
      ∧ (build_image false none ⟨[], none, none, [], [], []⟩ "proj"
          "bug-exorcist-sandbox:latest" true
          (build_image false none ⟨[], none, none, [], [], []⟩ "proj"
            "bug-exorcist-sandbox:latest" true ⟨[]⟩).cache).performed_build
          = false
      ∧ (build_image false none ⟨[], none, none, [], [], []⟩ "proj"
          "bug-exorcist-sandbox:latest" true ⟨[]⟩).performed_build
          = true :=
  ⟨(C8_amended none ⟨[], none, none, [], [], []⟩ "proj"
      "bug-exorcist-sandbox:latest" ⟨[]⟩).1,
   (C8_amended none ⟨[], none, none, [], [], []⟩ "proj"
      "bug-exorcist-sandbox:latest" ⟨[]⟩).2.1,
   (C8_amended none ⟨[], none, none, [], [], []⟩ "proj"
      "bug-exorcist-sandbox:latest" ⟨[]⟩).2.2 (by decide)⟩

/-- Unfolding of one loop iteration whose provider call raises. -/
theorem execRetryAux_succ_raises (steps : Nat → ProviderStep)
    (max_attempts n i : Nat) (msg : String)
    (hs : steps i = ProviderStep.raises msg) :
    execRetryAux steps max_attempts (n + 1) i
      = ⟨⟨i, "ERROR", false, none⟩
            :: (execRetryAux steps max_attempts n (i + 1)).all_attempts,
         (if i < max_attempts then [i] else [])
            ++ (execRetryAux steps max_attempts n (i + 1)).failed_hook_calls,
         (execRetryAux steps max_attempts n (i + 1)).success⟩ := by
  rw [execRetryAux, hs]

/-- Unfolding of one loop iteration whose fix fails verification. -/
theorem execRetryAux_succ_failed (steps : Nat → ProviderStep)
    (max_attempts n i : Nat) (e : Option String)
    (hs : steps i = ProviderStep.fix false e) :
    execRetryAux steps max_attempts (n + 1) i
      = ⟨⟨i, "FAILED", true, e⟩
            :: (execRetryAux steps max_attempts n (i + 1)).all_attempts,
         (if i < max_attempts then [i] else [])
            ++ (execRetryAux steps max_attempts n (i + 1)).failed_hook_calls,
         (execRetryAux steps max_attempts n (i + 1)).success⟩ := by
  rw [execRetryAux, hs]
  rfl

/-- Unfolding of one loop iteration whose fix verifies: the loop breaks. -/
theorem execRetryAux_succ_passed (steps : Nat → ProviderStep)
    (max_attempts n i : Nat) (e : Option String)
    (hs : steps i = ProviderStep.fix true e) :
    execRetryAux steps max_attempts (n + 1) i
      = ⟨[⟨i, "PASSED", true, e⟩], [], true⟩ := by
  rw [execRetryAux, hs]
  rfl

/-- The attempt history produced by the loop from attempt `i` with `fuel`
remaining iterations carries consecutive attempt numbers starting at `i`,
and at most `fuel` records. -/
theorem execRetryAux_attempt_numbers (steps : Nat → ProviderStep)
    (max_attempts : Nat) :
    ∀ fuel i,
      (execRetryAux steps max_attempts fuel i).all_attempts.map
          AttemptRecord.attempt_number
        = List.range' i (execRetryAux steps max_attempts fuel i).all_attempts.length
      ∧ (execRetryAux steps max_attempts fuel i).all_attempts.length ≤ fuel := by
  intro fuel
  induction fuel with
  | zero => intro i; simp [execRetryAux]
  | succ n ih =>
    intro i
    cases hs : steps i with
    | raises msg =>
      rw [execRetryAux_succ_raises steps max_attempts n i msg hs]
      simp only [List.map_cons, List.length_cons, List.range'_succ]
      exact ⟨by rw [(ih (i + 1)).1], Nat.succ_le_succ (ih (i + 1)).2⟩
    | fix v e =>
      cases v with
      | true =>
        rw [execRetryAux_succ_passed steps max_attempts n i e hs]
        simp
      | false =>
        rw [execRetryAux_succ_failed steps max_attempts n i e hs]
        simp only [List.map_cons, List.length_cons, List.range'_succ]
        exact ⟨by rw [(ih (i + 1)).1], Nat.succ_le_succ (ih (i + 1)).2⟩

/-- C2: for every `max_attempts ∈ [1,5]` and every behaviour of the
provider/verification oracle, the retry loop performs at most
`max_attempts` attempts and the `attempt_number` values recorded in the
history are exactly the consecutive sequence `1..k` for some
`k ≤ max_attempts` — no gaps, no reordering. -/
theorem C2_attempt_numbers_contiguous (steps : Nat → ProviderStep)
    (max_attempts : Nat) (h1 : 1 ≤ max_attempts) (h5 : max_attempts ≤ 5) :
    ∃ k ≤ max_attempts,
      (execute_retry_logic steps max_attempts).all_attempts.map
          AttemptRecord.attempt_number
        = List.range' 1 k := by
  refine ⟨(execute_retry_logic steps max_attempts).all_attempts.length, ?_, ?_⟩
  · exact (execRetryAux_attempt_numbers steps max_attempts max_attempts 1).2
  · exact (execRetryAux_attempt_numbers steps max_attempts max_attempts 1).1

/-- C2 witness: with three allowed attempts and an oracle that fails
verification every time, the recorded attempt numbers are `1..k` for a
`k ≤ 3`. -/
theorem C2_attempt_numbers_contiguous_witness :
    ∃ k ≤ 3,
      (execute_retry_logic (fun _ => ProviderStep.fix false none) 3).all_attempts.map
          AttemptRecord.attempt_number
        = List.range' 1 k :=
  C2_attempt_numbers_contiguous (fun _ => ProviderStep.fix false none) 3
    (by decide) (by decide)

/-- C6 counterexample: with `max_attempts = 1` and the provider raising on
attempt 1, the loop records the attempt as `ERROR` with no fix, but
`on_attempt_failed` is never invoked (`failed_hook_calls = []`), because
the source guards the hook with `attempt_num < max_attempts` — contrary to
the claim's unconditional "invokes onAttemptFailed". -/
theorem C6_counterexample :
    execute_retry_logic (fun _ => ProviderStep.raises "provider boom") 1
      = ⟨[⟨1, "ERROR", false, none⟩], [], false⟩ := by
  decide

/-- Decomposition of the loop at an intermediate attempt: if none of the
`d` attempts `i, …, i+d-1` generates a verified fix, the run with `fuel`
iterations is the run of those `d` attempts followed by the run resuming
at attempt `i + d` with the remaining fuel. -/
theorem execRetryAux_decompose (steps : Nat → ProviderStep) (max_attempts : Nat) :
    ∀ d fuel i, d ≤ fuel →
      (∀ j, i ≤ j → j < i + d → isSuccessStep (steps j) = false) →
      execRetryAux steps max_attempts fuel i
        = ⟨(execRetryAux steps max_attempts d i).all_attempts
              ++ (execRetryAux steps max_attempts (fuel - d) (i + d)).all_attempts,
           (execRetryAux steps max_attempts d i).failed_hook_calls
              ++ (execRetryAux steps max_attempts (fuel - d) (i + d)).failed_hook_calls,
           (execRetryAux steps max_attempts (fuel - d) (i + d)).success⟩ := by
  intro d
  induction d with
  | zero =>
    intro fuel i _ _
    simp [execRetryAux]
  | succ d ih =>
    intro fuel i hd hns
    obtain ⟨f, rfl⟩ : ∃ f, fuel = f + 1 := ⟨fuel - 1, by omega⟩
    have hdf : d ≤ f := by omega
    cases hs : steps i with
    | raises msg =>
      rw [execRetryAux_succ_raises steps max_attempts f i msg hs,
        execRetryAux_succ_raises steps max_attempts d i msg hs,
        show f + 1 - (d + 1) = f - d from by omega,
        show i + (d + 1) = i + 1 + d from by omega,
        ih f (i + 1) hdf (fun j hj1 hj2 => hns j (by omega) (by omega))]
      simp [List.cons_append, List.append_assoc]
    | fix v e =>
      cases v with
      | true =>
        have := hns i (Nat.le_refl i) (by omega)
        rw [hs] at this
        simp [isSuccessStep] at this
      | false =>
        rw [execRetryAux_succ_failed steps max_attempts f i e hs,
          execRetryAux_succ_failed steps max_attempts d i e hs,
          show f + 1 - (d + 1) = f - d from by omega,
          show i + (d + 1) = i + 1 + d from by omega,
          ih f (i + 1) hdf (fun j hj1 hj2 => hns j (by omega) (by omega))]
        simp [List.cons_append, List.append_assoc]

/-- Every `on_attempt_failed` invocation recorded by the loop is at an
attempt number below `max_attempts` (the source guards the call with
`attempt_num < max_attempts`). -/
theorem execRetryAux_hook_lt (steps : Nat → ProviderStep) (max_attempts : Nat) :
    ∀ fuel j x, x ∈ (execRetryAux steps max_attempts fuel j).failed_hook_calls →
      x < max_attempts := by
  intro fuel
  induction fuel with
  | zero => intro j x hx; simp [execRetryAux] at hx
  | succ f ih =>
    intro j x hx
    cases hs : steps j with
    | raises msg =>
      rw [execRetryAux_succ_raises steps max_attempts f j msg hs] at hx
      rcases List.mem_append.mp hx with h | h
      · by_cases hj : j < max_attempts
        · rw [if_pos hj] at h
          simp at h
          omega
        · rw [if_neg hj] at h
          simp at h
      · exact ih (j + 1) x h
    | fix v e =>
      cases v with
      | true =>
        rw [execRetryAux_succ_passed steps max_attempts f j e hs] at hx
        simp at hx
      | false =>
        rw [execRetryAux_succ_failed steps max_attempts f j e hs] at hx
        rcases List.mem_append.mp hx with h | h
        · by_cases hj : j < max_attempts
          · rw [if_pos hj] at h
            simp at h
            omega
          · rw [if_neg hj] at h
            simp at h
        · exact ih (j + 1) x h

/-- With at least one iteration of fuel left, the loop's next record is
for the current attempt number, whatever the oracle does there. -/
theorem execRetryAux_first (steps : Nat → ProviderStep) (max_attempts : Nat)
    (fuel j : Nat) (hf : 1 ≤ fuel) :
    ∃ r t, (execRetryAux steps max_attempts fuel j).all_attempts = r :: t
      ∧ r.attempt_number = j := by
  obtain ⟨f, rfl⟩ : ∃ f, fuel = f + 1 := ⟨fuel - 1, by omega⟩
  cases hs : steps j with
  | raises msg =>
    refine ⟨⟨j, "ERROR", false, none⟩,
      (execRetryAux steps max_attempts f (j + 1)).all_attempts, ?_, rfl⟩
    rw [execRetryAux_succ_raises steps max_attempts f j msg hs]
  | fix v e =>
    cases v with
    | true =>
      refine ⟨⟨j, "PASSED", true, e⟩, [], ?_, rfl⟩
      rw [execRetryAux_succ_passed steps max_attempts f j e hs]
    | false =>
      refine ⟨⟨j, "FAILED", true, e⟩,
        (execRetryAux steps max_attempts f (j + 1)).all_attempts, ?_, rfl⟩
      rw [execRetryAux_succ_failed steps max_attempts f j e hs]

/-- C6 amended: in an arbitrary run, if attempt `i` is reached (it is
within the budget and no earlier attempt verified) and its provider call
raises, the controller appends the `ERROR`-tagged `AttemptRecord` for
attempt `i` with no fix, invokes `on_attempt_failed` at `i` exactly when
`i < max_attempts` (so not on the last allowed attempt), continues to
attempt `i+1` whenever `i` was not the last allowed attempt, and never
runs an attempt outside `1..max_attempts` — the single provider error
drives the loop forward rather than aborting the task or escaping the
loop. -/
theorem C6_amended (steps : Nat → ProviderStep) (max_attempts i : Nat)
    (msg : String) (h1 : 1 ≤ i) (him : i ≤ max_attempts)
    (hprev : ∀ j, 1 ≤ j → j < i → isSuccessStep (steps j) = false)
    (hs : steps i = ProviderStep.raises msg) :
    (⟨i, "ERROR", false, none⟩ : AttemptRecord)
        ∈ (execute_retry_logic steps max_attempts).all_attempts
      ∧ (i ∈ (execute_retry_logic steps max_attempts).failed_hook_calls
          ↔ i < max_attempts)
      ∧ (i < max_attempts →
          ∃ r ∈ (execute_retry_logic steps max_attempts).all_attempts,
            r.attempt_number = i + 1)
      ∧ (∀ r ∈ (execute_retry_logic steps max_attempts).all_attempts,
          1 ≤ r.attempt_number ∧ r.attempt_number ≤ max_attempts) := by
  have hdec := execRetryAux_decompose steps max_attempts (i - 1) max_attempts 1
    (by omega) (fun j hj1 hj2 => hprev j hj1 (by omega))
  rw [show max_attempts - (i - 1) = (max_attempts - i) + 1 from by omega,
    show 1 + (i - 1) = i from by omega,
    execRetryAux_succ_raises steps max_attempts (max_attempts - i) i msg hs]
    at hdec
  have heq : execute_retry_logic steps max_attempts
      = ⟨(execRetryAux steps max_attempts (i - 1) 1).all_attempts
            ++ (⟨i, "ERROR", false, none⟩
              :: (execRetryAux steps max_attempts (max_attempts - i)
                    (i + 1)).all_attempts),
         (execRetryAux steps max_attempts (i - 1) 1).failed_hook_calls
            ++ ((if i < max_attempts then [i] else [])
              ++ (execRetryAux steps max_attempts (max_attempts - i)
                    (i + 1)).failed_hook_calls),
         (execRetryAux steps max_attempts (max_attempts - i) (i + 1)).success⟩ :=
    hdec
  have hbound : ∀ r ∈ (execute_retry_logic steps max_attempts).all_attempts,
      1 ≤ r.attempt_number ∧ r.attempt_number ≤ max_attempts := by
    intro r hr
    have hnum := execRetryAux_attempt_numbers steps max_attempts max_attempts 1
    have hmem : r.attempt_number
        ∈ (execRetryAux steps max_attempts max_attempts 1).all_attempts.map
            AttemptRecord.attempt_number :=
      List.mem_map_of_mem AttemptRecord.attempt_number hr
    rw [hnum.1, List.mem_range'_1] at hmem
    have hlen := hnum.2
    omega
  refine ⟨?_, ⟨?_, ?_⟩, ?_, hbound⟩
  · rw [heq]
    simp
  · intro hx
    exact execRetryAux_hook_lt steps max_attempts max_attempts 1 i hx
  · intro hlt
    rw [heq]
    simp [hlt]
  · intro hlt
    have hf : 1 ≤ max_attempts - i := by omega
    obtain ⟨r, t, hrt, hnum⟩ :=
      execRetryAux_first steps max_attempts (max_attempts - i) (i + 1) hf
    refine ⟨r, ?_, hnum⟩
    rw [heq]
    apply List.mem_append.mpr
    right
    apply List.mem_cons.mpr
    right
    rw [hrt]
    exact List.mem_cons_self r t

/-- C6 amended, witness: a mixed run with three allowed attempts whose
provider raises only at attempt 2 (attempt 1 fails verification
normally): the ERROR record for attempt 2 is appended, the hook fires at
attempt 2, the loop continues to attempt 3, and all attempts stay within
the budget. -/
theorem C6_amended_witness :
    (⟨2, "ERROR", false, none⟩ : AttemptRecord)
        ∈ (execute_retry_logic
            (fun j => if j = 2 then ProviderStep.raises "provider boom"
              else ProviderStep.fix false none) 3).all_attempts
      ∧ (2 ∈ (execute_retry_logic
            (fun j => if j = 2 then ProviderStep.raises "provider boom"
              else ProviderStep.fix false none) 3).failed_hook_calls
          ↔ 2 < 3)
      ∧ (2 < 3 →
          ∃ r ∈ (execute_retry_logic
              (fun j => if j = 2 then ProviderStep.raises "provider boom"
                else ProviderStep.fix false none) 3).all_attempts,
            r.attempt_number = 2 + 1)
      ∧ (∀ r ∈ (execute_retry_logic
            (fun j => if j = 2 then ProviderStep.raises "provider boom"
              else ProviderStep.fix false none) 3).all_attempts,
          1 ≤ r.attempt_number ∧ r.attempt_number ≤ 3) :=
  C6_amended
    (fun j => if j = 2 then ProviderStep.raises "provider boom"
      else ProviderStep.fix false none) 3 2 "provider boom"
    (by decide) (by decide)
    (fun j hj1 hj2 => by interval_cases j; decide)
    (by decide)

/-- C1 counterexample: a run that neither raises nor times out (exit code
0) and whose output does not contain the original error string is still
reported `verified = false`, because its output happens to contain the
marker substring `"Error"` — refuting the claim that such an execution
"always yields verified=true". -/
theorem C1_counterexample :
    (run_code false
        ⟨[], true, "", true, "", some 0, true, "", "Error handled gracefully"⟩
        (initState false)).1 = "Error handled gracefully"
      ∧ pyIn "ZeroDivisionError: division by zero" "Error handled gracefully"
          = false
      ∧ (verify_fix false false
          ⟨[], true, "", true, "", some 0, true, "", "Error handled gracefully"⟩
          (some "ZeroDivisionError: division by zero")
          (initState false)).verified = false := by
  decide

/-- C1 amended: with a reachable engine, the verdict is a failure exactly
when the captured output contains an error/trace marker (`"Error"` or
`"Traceback"`) or the non-empty original error string recurs in it, and
success otherwise; a non-zero sandbox exit always stamps the `"Error"`
marker into the output and therefore always fails — but an execution that
neither raises nor reproduces the original error is verified only if its
own output is also free of the marker substrings. -/
theorem C1_amended (inp : RunInput) (err : Option String) (allow : Bool) :
    ((verify_fix false allow inp err (initState false)).verified = true
      ↔ (pyIn "Error" ((run_code false inp (initState false)).1)
          || pyIn "Traceback" ((run_code false inp (initState false)).1)
          || (truthy err
              && pyIn (err.getD "") ((run_code false inp (initState false)).1)))
          = false)
    ∧ (∀ ec, inp.createOk = true → inp.sendOk = true → inp.logsOk = true →
        inp.waitExit = some ec → ec ≠ 0 →
        (verify_fix false allow inp err (initState false)).verified = false) := by
  constructor
  · by_cases hA :
        (truthy err && pyIn (err.getD "") ((run_code false inp (initState false)).1))
          = true
    · simp [verify_fix, hA]
    · have hA' :
          (truthy err && pyIn (err.getD "") ((run_code false inp (initState false)).1))
            = false := by simpa using hA
      by_cases hB :
          (pyIn "Error" ((run_code false inp (initState false)).1)
            || pyIn "Traceback" ((run_code false inp (initState false)).1)) = true
      · rcases Bool.or_eq_true_iff.1 hB with h | h <;> simp [verify_fix, hA', h]
      · have h1 : pyIn "Error" ((run_code false inp (initState false)).1) = false := by
          rcases Bool.or_eq_false_iff.1 (by simpa using hB) with ⟨h1, _⟩
          exact h1
        have h2 : pyIn "Traceback" ((run_code false inp (initState false)).1) = false := by
          rcases Bool.or_eq_false_iff.1 (by simpa using hB) with ⟨_, h2⟩
          exact h2
        simp [verify_fix, hA', h1, h2]
  · intro ec hcreate hsend hlogs hwait hne
    have hout : (run_code false inp (initState false)).1
        = (("Error (Exit Code " ++ toString ec) ++ "):\n") ++ inp.logs := by
      unfold run_code
      simp [hcreate, hsend, hlogs, hwait, hne]
    have hpre : isPrefixList "Error".data
        ((("Error (Exit Code " ++ toString ec) ++ "):\n")).data = true := by
      rw [String.data_append, String.data_append]
      exact isPrefixList_append_right _ _ _
        (isPrefixList_append_right _ _ _ (by decide))
    have hErr : pyIn "Error" ((run_code false inp (initState false)).1) = true := by
      rw [hout]
      exact pyIn_Error_of_startsWith _ _ hpre
    by_cases hA :
        (truthy err && pyIn (err.getD "") ((run_code false inp (initState false)).1))
          = true
    · simp [verify_fix, hA]
    · have hA' :
          (truthy err && pyIn (err.getD "") ((run_code false inp (initState false)).1))
            = false := by simpa using hA
      simp [verify_fix, hA', hErr]

/-- C1 amended, witness: at a concrete non-zero-exit run the verdict is a
failure, and the marker characterization holds at that input. -/
theorem C1_amended_witness :
    ((verify_fix false false ⟨[], true, "", true, "", some 1, true, "", "boom"⟩
        none (initState false)).verified = true
      ↔ (pyIn "Error"
            ((run_code false ⟨[], true, "", true, "", some 1, true, "", "boom"⟩
              (initState false)).1)
          || pyIn "Traceback"
            ((run_code false ⟨[], true, "", true, "", some 1, true, "", "boom"⟩
              (initState false)).1)
          || (truthy none
              && pyIn ((none : Option String).getD "")
                ((run_code false ⟨[], true, "", true, "", some 1, true, "", "boom"⟩
                  (initState false)).1)))
          = false)
    ∧ (verify_fix false false ⟨[], true, "", true, "", some 1, true, "", "boom"⟩
        none (initState false)).verified = false :=
  ⟨(C1_amended ⟨[], true, "", true, "", some 1, true, "", "boom"⟩ none false).1,
   (C1_amended ⟨[], true, "", true, "", some 1, true, "", "boom"⟩ none false).2
     1 rfl rfl rfl rfl (by decide)⟩

/-- C9 counterexample: two calls to the fallback generator with identical
error message, code snippet, bug id, attempt count and attempt history do
not return identical structures, because the response embeds
`datetime.now().isoformat()` — refuting full determinism of the listed
inputs. -/
theorem C9_counterexample :
    generate_fallback_response "ZeroDivisionError: division by zero"
        "def divide(a, b): return a / b" "BUG-1" 2 [] "2024-01-01T00:00:00"
      ≠ generate_fallback_response "ZeroDivisionError: division by zero"
        "def divide(a, b): return a / b" "BUG-1" 2 [] "2024-01-01T00:00:01" := by
  intro hcontra
  exact absurd (congrArg FallbackResponse.timestamp hcontra) (by decide)

/-- C9 amended: apart from the clock-stamped `timestamp` field, the
fallback generator is a pure function of its inputs: erasing the
timestamp, two calls with the same error message, code snippet, bug id,
attempt count and attempt history return identical guidance structures,
whatever the clock read. -/
theorem C9_amended (error_message code_snippet bug_id : String)
    (total_attempts : Nat) (all_attempts : List AttemptRecord) (t1 t2 : String) :
    eraseTimestamp (generate_fallback_response error_message code_snippet
        bug_id total_attempts all_attempts t1)
      = eraseTimestamp (generate_fallback_response error_message code_snippet
        bug_id total_attempts all_attempts t2) := rfl

/-- A parser step on a line without a code fence neither enters the code
state nor collects code. -/
theorem parseLine_no_fence (acc : ParseAcc) (line : List Char)
    (hf : hasSub "```".data ((pyStrip line).map Char.toLower) = false)
    (hs : acc.state ≠ ParseState.code) (hc : acc.fixed_code_lines = []) :
    (parseLine acc line).state ≠ ParseState.code
      ∧ (parseLine acc line).fixed_code_lines = [] := by
  unfold parseLine
  simp only [hf, Bool.false_eq_true, if_false]
  by_cases h1 : hasSub "root cause".data ((pyStrip line).map Char.toLower) = true
  · simp [h1, hc]
  · have h1' := Bool.not_eq_true _ |>.mp h1
    by_cases h2 : (hasSub "explanation".data ((pyStrip line).map Char.toLower)
        || hasSub "changes".data ((pyStrip line).map Char.toLower)) = true
    · simp [h1', h2, hc]
    · have h2' := Bool.not_eq_true _ |>.mp h2
      by_cases h3 : (hasSub "wrong with".data ((pyStrip line).map Char.toLower)
          || hasSub "previous attempt".data ((pyStrip line).map Char.toLower)) = true
      · simp [h1', h2', h3, hc]
      · have h3' := Bool.not_eq_true _ |>.mp h3
        cases hstate : acc.state with
        | start => simp [h1', h2', h3', hstate, hs, hc]
        | root_cause => simp [h1', h2', h3', hstate, hc]
        | code => exact absurd hstate hs
        | explanation => simp [h1', h2', h3', hstate, hc]
        | retry_analysis => simp [h1', h2', h3', hstate, hc]

/-- Folding the parser over fence-free lines never collects code. -/
theorem foldl_parseLine_no_fence (lines : List (List Char))
    (h : ∀ l ∈ lines, hasSub "```".data ((pyStrip l).map Char.toLower) = false) :
    ∀ acc : ParseAcc, acc.state ≠ ParseState.code → acc.fixed_code_lines = [] →
      (lines.foldl parseLine acc).state ≠ ParseState.code
        ∧ (lines.foldl parseLine acc).fixed_code_lines = [] := by
  induction lines with
  | nil => intro acc h1 h2; exact ⟨h1, h2⟩
  | cons l ls ih =>
    intro acc h1 h2
    have hstep := parseLine_no_fence acc l (h l (by simp)) h1 h2
    exact ih (fun x hx => h x (by simp [hx])) (parseLine acc l) hstep.1 hstep.2

/-- C10: when the AI response contains no fenced code section (no line
carries a ``` fence marker, the only way the parser ever collects code),
the returned `fixed_code` is exactly the original code snippet, and that
is the code `_execute_retry_logic` submits to sandbox verification. -/
theorem C10_no_code_block_keeps_original (ai_response original_code : String)
    (h : ∀ l ∈ splitOnChar '\n' ai_response.data,
      hasSub "```".data ((pyStrip l).map Char.toLower) = false) :
    (parse_ai_response ai_response original_code).fixed_code = original_code
      ∧ submitted_code ai_response original_code = original_code := by
  have hfold := foldl_parseLine_no_fence (splitOnChar '\n' ai_response.data) h
    ⟨[], [], [], [], ParseState.start⟩ (by simp) rfl
  have hmain : (parse_ai_response ai_response original_code).fixed_code
      = original_code := by
    unfold parse_ai_response
    simp only [hfold.2]
    rfl
  exact ⟨hmain, hmain⟩

/-- C10 witness: a concrete fence-free response keeps the original code. -/
theorem C10_no_code_block_keeps_original_witness :
    (parse_ai_response "Root Cause: missing guard\nExplanation: add a check"
        "def divide(a, b): return a / b").fixed_code
        = "def divide(a, b): return a / b"
      ∧ submitted_code "Root Cause: missing guard\nExplanation: add a check"
          "def divide(a, b): return a / b"
        = "def divide(a, b): return a / b" :=
  C10_no_code_block_keeps_original
    "Root Cause: missing guard\nExplanation: add a check"
    "def divide(a, b): return a / b" (by decide)

end BugExorcist
